import Mathlib

/-!
Verification of the Reminder Scheduling & Push Delivery subsystem of a
personal-productivity backend (`src/server.js`, lines 147-205).

The subsystem is a recurring timer tick that:
* checks the database connection and loads all push subscriptions
  (returning early when there are none),
* loads candidate tasks (`completed == false`, `notified == false`,
  `reminderOffset != -1`),
* filters them to the tasks whose trigger instant
  (`start - offset minutes`) falls in the same minute bucket
  (`Math.floor(ts / 60000) * 60000`) as the captured `now`,
* for each due task builds a JSON payload and sends it to every
  subscription, deleting a subscription whose send fails with HTTP
  status 404 or 410 and merely logging any other failure,
* then sets `notified = true` on the task and saves it.

The embedding below models tasks, subscriptions and the database state
explicitly; JavaScript `Date` parsing of the string
`` `${date}T${startTime}:00` `` is an external runtime facility, so it is
a parameter `jsParse : String → Option Int` producing epoch milliseconds
(`none` models an invalid date, i.e. `isNaN(taskDate.getTime())`).
Fallible store operations are modelled by boolean fault flags threaded
through `runTickF`; the fault-free tick is `runTick`.
-/

namespace LifeOS

/-- A task, restricted to the fields the reminder subsystem reads or
writes (`taskSchema` in `src/server.js`).  `reminderOffset` is `Option`
because the field may be absent (`undefined`) on a document. -/
structure Task where
  id : String
  title : String
  date : String
  startTime : String
  reminderOffset : Option Int
  completed : Bool
  notified : Bool
  deriving DecidableEq

/-- A push subscription (`subscriptionSchema`): a unique endpoint plus
opaque encryption keys. -/
structure Subscription where
  endpoint : String
  p256dh : String
  auth : String
  deriving DecidableEq

/-- Outcome of one `webpush.sendNotification` call: success, or a
rejection carrying an optional HTTP status code (`err.statusCode`,
which may be `undefined`). -/
inductive SendResult where
  | success : SendResult
  | failure : Option Int → SendResult
  deriving DecidableEq

/-- The notification payload object built at lines 180-184 of
`src/server.js` (the code serializes it with `JSON.stringify`; the
model keeps it structured). -/
structure Payload where
  title : String
  body : String
  icon : String
  deriving DecidableEq

/-- The persistent state the tick reads and mutates: the task
collection and the subscription collection. -/
structure DBState where
  tasks : List Task
  subs : List Subscription
  deriving DecidableEq

/-- Minute bucketing of an epoch-millisecond timestamp:
`Math.floor(ts / 60000) * 60000` (lines 155 and 168). -/
def bucket (ts : Int) : Int :=
  ts.fdiv 60000 * 60000

/-- The string handed to `new Date(...)` for a task:
`` `${t.date}T${t.startTime}:00` `` (line 162). -/
def taskTimeStr (t : Task) : String :=
  t.date ++ "T" ++ t.startTime ++ ":00"

/-- Offset resolution:
`t.reminderOffset !== undefined ? t.reminderOffset : 5`
(lines 166 and 177). -/
def resolveOffset (t : Task) : Int :=
  match t.reminderOffset with
  | some v => v
  | none => 5

/-- The candidate query
`Task.find({ completed: false, notified: false, reminderOffset: { $ne: -1 } })`
(line 159).  A missing `reminderOffset` field satisfies `$ne: -1`. -/
def isCandidate (t : Task) : Bool :=
  !t.completed && !t.notified && !(t.reminderOffset == some (-1))

/-- The per-task predicate of the `tasks.filter` at lines 161-171:
parse the task's date/time (excluding the task when parsing fails),
resolve the offset, subtract it in milliseconds, bucket the trigger to
a whole minute and compare with the already-bucketed current
timestamp. -/
def taskMatches (jsParse : String → Option Int) (currentTimestamp : Int)
    (t : Task) : Bool :=
  match jsParse (taskTimeStr t) with
  | none => false
  | some taskTime =>
    let offset := resolveOffset t
    let triggerTime := taskTime - offset * 60000
    bucket triggerTime == currentTimestamp

/-- `tasksToNotify` (line 161): the candidate query followed by the
minute-bucket match. -/
def tasksToNotify (jsParse : String → Option Int) (currentTimestamp : Int)
    (tasks : List Task) : List Task :=
  (tasks.filter isCandidate).filter (taskMatches jsParse currentTimestamp)

/-- `timeDesc` (line 178): the body phrase chosen by the resolved
offset. -/
def timeDesc (offset : Int) : String :=
  if offset == 0 then "现在开始" else "将在 " ++ toString offset ++ " 分钟后开始"

/-- The notification payload for a task (lines 177-184). -/
def buildPayload (t : Task) : Payload :=
  { title := "LifeOS 日程提醒"
    body := "任务 \"" ++ t.title ++ "\" " ++ timeDesc (resolveOffset t) ++ " (" ++ t.startTime ++ ")"
    icon := "/icon.png" }

/-- Classification of one subscriber's outcome in the `catch` at lines
187-193: a send is dead exactly when it failed with status code 410 or
404. -/
def isDead (send : Subscription → Payload → SendResult) (payload : Payload)
    (sub : Subscription) : Bool :=
  match send sub payload with
  | .success => false
  | .failure sc => sc == some 410 || sc == some 404

/-- Net effect on the store of the per-subscriber send loop for one
task (lines 186-195): every subscription in the captured list `subs`
whose send fails with 404/410 has `Subscription.deleteOne` applied to
its endpoint; all other failures are only logged. -/
def deleteDead (send : Subscription → Payload → SendResult) (payload : Payload)
    (subs : List Subscription) (st : DBState) : DBState :=
  let deadEndpoints := (subs.filter (isDead send payload)).map Subscription.endpoint
  { st with subs := st.subs.filter (fun s => !(deadEndpoints.contains s.endpoint)) }

/-- `task.notified = true` (line 198). -/
def setNotified (u : Task) : Task :=
  { u with notified := true }

/-- `task.notified = true; await task.save()` (lines 198-199): persist
`notified = true` on the document with this task's id. -/
def markNotified (task : Task) (st : DBState) : DBState :=
  { st with tasks := st.tasks.map (fun u =>
      if u.id == task.id then setNotified u else u) }

/-- The `for (const task of tasksToNotify)` loop (lines 176-200),
sequentially: per task, send to every captured subscription (deleting
the dead ones), then save `notified = true`.  `saveOk` is the fault
model for `task.save()`: when it is `false` for a task the save throws,
the exception propagates to the tick's `catch`, and the remaining tasks
are not processed. -/
def runTasks (send : Subscription → Payload → SendResult)
    (subs : List Subscription) (saveOk : Task → Bool) :
    List Task → DBState → DBState
  | [], st => st
  | task :: rest, st =>
    let st1 := deleteDead send (buildPayload task) subs st
    if saveOk task then runTasks send subs saveOk rest (markNotified task st1)
    else st1

/-- One tick of the `setInterval` cron (lines 147-205) with explicit
fault flags: `connected` is `mongoose.connection.readyState === 1`
(line 148); `subFindOk` / `taskFindOk` model whether
`Subscription.find` / `Task.find` throw (an exception is caught at line
202 leaving the state as it was).  The subscription list is captured
once before the task loop and reused for every task's sends. -/
def runTickF (jsParse : String → Option Int)
    (send : Subscription → Payload → SendResult)
    (connected subFindOk taskFindOk : Bool) (saveOk : Task → Bool)
    (now : Int) (st : DBState) : DBState :=
  if connected = false then st
  else if subFindOk = false then st
  else if st.subs.length == 0 then st
  else if taskFindOk = false then st
  else
    let currentTimestamp := bucket now
    let due := tasksToNotify jsParse currentTimestamp st.tasks
    if 0 < due.length then runTasks send st.subs saveOk due st else st

/-- The fault-free tick: database connected, both loads succeed, every
save succeeds. -/
def runTick (jsParse : String → Option Int)
    (send : Subscription → Payload → SendResult)
    (now : Int) (st : DBState) : DBState :=
  runTickF jsParse send true true true (fun _ => true) now st

/-- Closed-form description of what the task loop does to a task
document: its `notified` flag is set exactly when some processed task
shares its id. -/
def setNotifiedIf (L : List Task) (u : Task) : Task :=
  if L.any (fun v => v.id == u.id) then setNotified u else u

/-- Closed-form description of which subscriptions survive the task
loop: those whose endpoint is, for every processed task, not among the
endpoints whose send for that task's payload failed with 404/410. -/
def survives (send : Subscription → Payload → SendResult)
    (subs : List Subscription) (L : List Task) (s : Subscription) : Bool :=
  L.all (fun task =>
    !(((subs.filter (isDead send (buildPayload task))).map
        Subscription.endpoint).contains s.endpoint))

/-! Concrete fixtures used by witnesses and counterexamples.  Epoch
milliseconds are taken on 1970-01-01, where `10:00` (UTC) is
36000000 ms; `09:55:30` is 35730000 ms, `09:54:30` is 35670000 ms and
`09:56:30` is 35790000 ms. -/

/-- A concrete date parser: recognises exactly the instant
`1970-01-01T10:00:00` (36000000 epoch ms) and fails on every other
string, as `new Date` fails on malformed input. -/
def jsParse0 : String → Option Int := fun s =>
  if s == "1970-01-01T10:00:00" then some 36000000 else none

/-- A task starting at 10:00 with a 5-minute reminder offset. -/
def taskA : Task :=
  { id := "t1", title := "晨会", date := "1970-01-01", startTime := "10:00",
    reminderOffset := some 5, completed := false, notified := false }

/-- A second due task, distinct id. -/
def taskB : Task :=
  { taskA with id := "t2", title := "复盘" }

/-- A task without a `reminderOffset` field. -/
def taskNoOff : Task :=
  { taskA with id := "t3", reminderOffset := none }

/-- A task with reminders disabled (`reminderOffset = -1`). -/
def taskDisabled : Task :=
  { taskA with id := "t4", reminderOffset := some (-1) }

/-- A task whose date string does not parse. -/
def taskBadDate : Task :=
  { taskA with id := "t5", date := "not-a-date" }

/-- A task with a zero reminder offset (fire at start). -/
def taskNow : Task :=
  { taskA with id := "t6", reminderOffset := some 0 }

/-- A concrete subscription. -/
def subA : Subscription :=
  { endpoint := "https://push.example/a", p256dh := "pk-a", auth := "au-a" }

/-- A second concrete subscription. -/
def subB : Subscription :=
  { endpoint := "https://push.example/b", p256dh := "pk-b", auth := "au-b" }

/-- A transport for which every send succeeds. -/
def sendOk : Subscription → Payload → SendResult := fun _ _ => .success

/-- A transport for which every send fails transiently (HTTP 500). -/
def sendFail500 : Subscription → Payload → SendResult := fun _ _ => .failure (some 500)

/-- A transport for which every send fails permanently (HTTP 410). -/
def sendGone410 : Subscription → Payload → SendResult := fun _ _ => .failure (some 410)

/-- A save fault model: `task.save()` succeeds only for the document
with id `t1` and throws for every other document. -/
def saveOk1 : Task → Bool := fun t => t.id == "t1"

/-- A transport that reports subscription `subA` permanently gone
(HTTP 404) and fails transiently (HTTP 500) for everyone else. -/
def sendDeadA : Subscription → Payload → SendResult := fun sub _ =>
  if sub.endpoint == subA.endpoint then .failure (some 404) else .failure (some 500)

/-! Helper lemmas: closed forms for the effect of the task loop on the
two collections. -/

@[simp]
theorem setNotified_id (u : Task) : (setNotified u).id = u.id := rfl

@[simp]
theorem setNotified_notified (u : Task) : (setNotified u).notified = true := rfl

@[simp]
theorem setNotified_idem (u : Task) : setNotified (setNotified u) = setNotified u := rfl

theorem deleteDead_tasks (send : Subscription → Payload → SendResult)
    (payload : Payload) (subs : List Subscription) (st : DBState) :
    (deleteDead send payload subs st).tasks = st.tasks := rfl

theorem markNotified_subs (task : Task) (st : DBState) :
    (markNotified task st).subs = st.subs := rfl

theorem setNotifiedIf_cons (task : Task) (rest : List Task) (u : Task) :
    setNotifiedIf rest (if u.id == task.id then setNotified u else u) =
    setNotifiedIf (task :: rest) u := by
  by_cases h : u.id = task.id
  · simp [setNotifiedIf, h, List.any_cons]
  · simp [setNotifiedIf, h, List.any_cons, Ne.symm h]

theorem runTasks_tasks (send : Subscription → Payload → SendResult)
    (subs : List Subscription) (L : List Task) (st : DBState) :
    (runTasks send subs (fun _ => true) L st).tasks =
      st.tasks.map (setNotifiedIf L) := by
  induction L generalizing st with
  | nil =>
    have hid : setNotifiedIf [] = fun u : Task => u := by
      funext u
      simp [setNotifiedIf]
    simp [runTasks, hid]
  | cons task rest ih =>
    show (runTasks send subs (fun _ => true) rest
        (markNotified task (deleteDead send (buildPayload task) subs st))).tasks = _
    rw [ih]
    have hfun : (setNotifiedIf rest ∘ fun u =>
        if u.id == task.id then setNotified u else u) =
        setNotifiedIf (task :: rest) := by
      funext u
      exact setNotifiedIf_cons task rest u
    simp only [markNotified, deleteDead, List.map_map]
    rw [hfun]

theorem runTasks_subs (send : Subscription → Payload → SendResult)
    (subs : List Subscription) (L : List Task) (st : DBState) :
    (runTasks send subs (fun _ => true) L st).subs =
      st.subs.filter (survives send subs L) := by
  induction L generalizing st with
  | nil =>
    have htrue : survives send subs [] = fun _ : Subscription => true := by
      funext s
      simp [survives]
    simp [runTasks, htrue]
  | cons task rest ih =>
    show (runTasks send subs (fun _ => true) rest
        (markNotified task (deleteDead send (buildPayload task) subs st))).subs = _
    rw [ih]
    have hfun : (fun s => survives send subs rest s &&
        !(((subs.filter (isDead send (buildPayload task))).map
            Subscription.endpoint).contains s.endpoint)) =
        survives send subs (task :: rest) := by
      funext s
      simp [survives, List.all_cons, Bool.and_comm]
    simp only [markNotified, deleteDead]
    rw [List.filter_filter, hfun]

theorem runTick_empty_subs (jsParse : String → Option Int)
    (send : Subscription → Payload → SendResult) (now : Int) (st : DBState)
    (hs : st.subs = []) : runTick jsParse send now st = st := by
  simp [runTick, runTickF, hs]

theorem runTick_eq_runTasks (jsParse : String → Option Int)
    (send : Subscription → Payload → SendResult) (now : Int) (st : DBState)
    (hs : st.subs ≠ []) :
    runTick jsParse send now st =
      runTasks send st.subs (fun _ => true)
        (tasksToNotify jsParse (bucket now) st.tasks) st := by
  have h0 : (st.subs.length == 0) = false := by
    simp [List.length_eq_zero, hs]
  by_cases hd : 0 < (tasksToNotify jsParse (bucket now) st.tasks).length
  · simp [runTick, runTickF, h0, hd]
  · have hnil : tasksToNotify jsParse (bucket now) st.tasks = [] := by
      rw [← List.length_eq_zero]
      omega
    simp [runTick, runTickF, h0, hd, hnil, runTasks]

/-! Claim theorems. -/

/-- C1: the Matcher computes `trigger = startInstant - offset minutes`,
buckets both the trigger and the captured `now` to whole minutes via
`floor(ts / 60000) * 60000`, and includes the task iff the two buckets
are equal. -/
theorem minute_bucket_match_iff (jsParse : String → Option Int) (now : Int)
    (t : Task) (taskTime : Int)
    (hp : jsParse (taskTimeStr t) = some taskTime) :
    taskMatches jsParse (bucket now) t = true ↔
      bucket (taskTime - resolveOffset t * 60000) = bucket now := by
  simp [taskMatches, hp]

/-- C1 witness: a task with `reminderOffset = 5` and
`startTime = "10:00"` (start instant 36000000 ms) is included when now
is 09:55:30 (bucket 09:55) and excluded at 09:54:30 and 09:56:30. -/
theorem minute_bucket_match_iff_witness :
    taskMatches jsParse0 (bucket 35730000) taskA = true ∧
    taskMatches jsParse0 (bucket 35670000) taskA = false ∧
    taskMatches jsParse0 (bucket 35790000) taskA = false :=
  ⟨(minute_bucket_match_iff jsParse0 35730000 taskA 36000000 (by decide)).mpr
      (by decide),
   by decide, by decide⟩

/-- C3: the set of tasks considered for matching is exactly those with
`completed == false`, `notified == false` and `reminderOffset != -1`;
a task with `reminderOffset = -1` is never in `tasksToNotify`, and
neither is a completed task. -/
theorem candidate_selection (jsParse : String → Option Int) (ts : Int)
    (tasks : List Task) (t : Task) :
    (t ∈ tasks.filter isCandidate ↔
      t ∈ tasks ∧ t.completed = false ∧ t.notified = false ∧
        t.reminderOffset ≠ some (-1)) ∧
    (t.reminderOffset = some (-1) → t ∉ tasksToNotify jsParse ts tasks) ∧
    (t.completed = true → t ∉ tasksToNotify jsParse ts tasks) := by
  refine ⟨?_, ?_, ?_⟩
  · simp [List.mem_filter, isCandidate, and_assoc]
  · intro h hin
    have hc := (List.mem_filter.mp ((List.mem_filter.mp hin).1)).2
    simp [isCandidate, h] at hc
  · intro h hin
    have hc := (List.mem_filter.mp ((List.mem_filter.mp hin).1)).2
    simp [isCandidate, h] at hc

/-- C3 witness: a disabled-reminder task whose date and time would
match is still never in `tasksToNotify`. -/
theorem candidate_selection_witness :
    taskDisabled ∉ tasksToNotify jsParse0 (bucket 35730000) [taskDisabled, taskA] :=
  (candidate_selection jsParse0 (bucket 35730000) [taskDisabled, taskA]
      taskDisabled).2.1 rfl

/-- C10: when the subscription list is empty the tick returns before
loading or matching tasks: the whole database state, in particular
every task's `notified` flag, is unchanged, so due reminders are not
consumed. -/
theorem empty_subs_tick_noop (jsParse : String → Option Int)
    (send : Subscription → Payload → SendResult) (now : Int) (st : DBState)
    (hs : st.subs = []) : runTick jsParse send now st = st :=
  runTick_empty_subs jsParse send now st hs

/-- C10 witness: a task due at the current tick is left untouched by a
tick with no subscribers. -/
theorem empty_subs_tick_noop_witness :
    runTick jsParse0 sendOk 35730000 ⟨[taskA], []⟩ = ⟨[taskA], []⟩ :=
  empty_subs_tick_noop jsParse0 sendOk 35730000 ⟨[taskA], []⟩ rfl

/-- C2: every due task for which dispatch was attempted ends the tick
with `notified = true` persisted, whatever the transport did for each
subscriber; the updated document is no longer a candidate and can never
be matched again by `tasksToNotify`. -/
theorem attempted_dispatch_consumes_reminder (jsParse : String → Option Int)
    (send : Subscription → Payload → SendResult) (now : Int) (st : DBState)
    (t : Task) (ht : t ∈ st.tasks) (hc : isCandidate t = true)
    (hm : taskMatches jsParse (bucket now) t = true) (hs : st.subs ≠ []) :
    ∃ t', t' ∈ (runTick jsParse send now st).tasks ∧ t'.id = t.id ∧
      t'.notified = true ∧ isCandidate t' = false ∧
      ∀ (jsParse2 : String → Option Int) (ts2 : Int) (tasks2 : List Task),
        t' ∉ tasksToNotify jsParse2 ts2 tasks2 := by
  refine ⟨setNotified t, ?_, rfl, rfl, ?_, ?_⟩
  · rw [runTick_eq_runTasks _ _ _ _ hs, runTasks_tasks]
    have hdue : t ∈ tasksToNotify jsParse (bucket now) st.tasks :=
      List.mem_filter.mpr ⟨List.mem_filter.mpr ⟨ht, hc⟩, hm⟩
    have hany : (tasksToNotify jsParse (bucket now) st.tasks).any
        (fun v => v.id == t.id) = true :=
      List.any_eq_true.mpr ⟨t, hdue, by simp⟩
    have hset : setNotifiedIf (tasksToNotify jsParse (bucket now) st.tasks) t =
        setNotified t := by
      simp [setNotifiedIf, hany]
    rw [← hset]
    exact List.mem_map_of_mem _ ht
  · simp [isCandidate]
  · intro jsParse2 ts2 tasks2 hin
    have hcand := (List.mem_filter.mp ((List.mem_filter.mp hin).1)).2
    simp [isCandidate] at hcand

/-- C2 witness: with a single subscriber whose every send fails
transiently (HTTP 500), the due task is still marked notified and
excluded from all future matching. -/
theorem attempted_dispatch_consumes_reminder_witness :
    ∃ t', t' ∈ (runTick jsParse0 sendFail500 35730000
        ⟨[taskA], [subA]⟩).tasks ∧ t'.id = taskA.id ∧
      t'.notified = true ∧ isCandidate t' = false ∧
      ∀ (jsParse2 : String → Option Int) (ts2 : Int) (tasks2 : List Task),
        t' ∉ tasksToNotify jsParse2 ts2 tasks2 :=
  attempted_dispatch_consumes_reminder jsParse0 sendFail500 35730000
    ⟨[taskA], [subA]⟩ taskA (by decide) (by decide) (by decide) (by decide)

/-- C5: in the per-subscriber outcome handling, a subscription whose
send fails with HTTP 404 or 410 is removed from the store, a
subscription whose send fails any other way (or succeeds) stays in the
store, and the task collection is untouched by this step. -/
theorem dead_endpoint_classification (send : Subscription → Payload → SendResult)
    (payload : Payload) (st : DBState) (s : Subscription)
    (hnd : (st.subs.map Subscription.endpoint).Nodup) (hm : s ∈ st.subs) :
    (isDead send payload s = true →
      s ∉ (deleteDead send payload st.subs st).subs) ∧
    (isDead send payload s = false →
      s ∈ (deleteDead send payload st.subs st).subs) ∧
    (deleteDead send payload st.subs st).tasks = st.tasks := by
  have hsubs : (deleteDead send payload st.subs st).subs =
      st.subs.filter (fun x =>
        !(((st.subs.filter (isDead send payload)).map
            Subscription.endpoint).contains x.endpoint)) := rfl
  refine ⟨?_, ?_, rfl⟩
  · intro hd hin
    rw [hsubs] at hin
    have h2 := (List.mem_filter.mp hin).2
    have hmem : s.endpoint ∈ (st.subs.filter (isDead send payload)).map
        Subscription.endpoint :=
      List.mem_map_of_mem _ (List.mem_filter.mpr ⟨hm, hd⟩)
    simp [hmem] at h2
  · intro hd
    rw [hsubs]
    have hnot : s.endpoint ∉ (st.subs.filter (isDead send payload)).map
        Subscription.endpoint := by
      intro hmem
      rcases List.mem_map.mp hmem with ⟨s2, hs2, heq⟩
      have hs2mem := (List.mem_filter.mp hs2).1
      have hs2dead := (List.mem_filter.mp hs2).2
      have hsame : s2 = s := List.inj_on_of_nodup_map hnd hs2mem hm heq
      rw [hsame, hd] at hs2dead
      exact Bool.noConfusion hs2dead
    refine List.mem_filter.mpr ⟨hm, ?_⟩
    simp [hnot]

/-- C5 witness: with two subscriptions, one failing with 404 and one
failing with 500, the 404 one is removed, the 500 one is kept. -/
theorem dead_endpoint_classification_witness :
    subA ∉ (deleteDead sendDeadA (buildPayload taskA) [subA, subB]
      ⟨[taskA], [subA, subB]⟩).subs ∧
    subB ∈ (deleteDead sendDeadA (buildPayload taskA) [subA, subB]
      ⟨[taskA], [subA, subB]⟩).subs :=
  ⟨(dead_endpoint_classification sendDeadA (buildPayload taskA)
      ⟨[taskA], [subA, subB]⟩ subA (by decide) (by decide)).1 (by decide),
   (dead_endpoint_classification sendDeadA (buildPayload taskA)
      ⟨[taskA], [subA, subB]⟩ subB (by decide) (by decide)).2.1 (by decide)⟩

/-- C7: a candidate whose date/startTime fails to parse is silently
excluded by the matcher (`taskMatches` is false), and one tick leaves
that task document unchanged in the store. -/
theorem malformed_schedule_skipped (jsParse : String → Option Int)
    (send : Subscription → Payload → SendResult) (now : Int) (st : DBState)
    (t : Task) (hnd : (st.tasks.map Task.id).Nodup) (ht : t ∈ st.tasks)
    (hp : jsParse (taskTimeStr t) = none) :
    taskMatches jsParse (bucket now) t = false ∧
    t ∈ (runTick jsParse send now st).tasks := by
  have hmatch : taskMatches jsParse (bucket now) t = false := by
    simp [taskMatches, hp]
  refine ⟨hmatch, ?_⟩
  by_cases hs : st.subs = []
  · rw [runTick_empty_subs _ _ _ _ hs]
    exact ht
  · rw [runTick_eq_runTasks _ _ _ _ hs, runTasks_tasks]
    have hset : setNotifiedIf (tasksToNotify jsParse (bucket now) st.tasks) t = t := by
      rw [setNotifiedIf, if_neg]
      intro hany
      rcases List.any_eq_true.mp hany with ⟨v, hv, hveq⟩
      have hvmem : v ∈ st.tasks :=
        (List.mem_filter.mp ((List.mem_filter.mp hv).1)).1
      have hvmatch := (List.mem_filter.mp hv).2
      have hsame : v = t :=
        List.inj_on_of_nodup_map hnd hvmem ht (beq_iff_eq.mp hveq)
      rw [hsame, hmatch] at hvmatch
      exact Bool.noConfusion hvmatch
    rw [← hset]
    exact List.mem_map_of_mem _ ht

/-- C7 witness: a malformed task is skipped while a well-formed task in
the same tick is processed (the tick runs with a subscriber present). -/
theorem malformed_schedule_skipped_witness :
    taskMatches jsParse0 (bucket 35730000) taskBadDate = false ∧
    taskBadDate ∈ (runTick jsParse0 sendOk 35730000
      ⟨[taskBadDate, taskA], [subA]⟩).tasks :=
  malformed_schedule_skipped jsParse0 sendOk 35730000
    ⟨[taskBadDate, taskA], [subA]⟩ taskBadDate (by decide) (by decide) (by decide)

/-- C8: an absent `reminderOffset` resolves to 5 minutes, and that
default is what both the matcher and the payload builder see — the task
behaves exactly like one with `reminderOffset = 5`; a defined offset is
used unchanged. -/
theorem offset_defaulting (jsParse : String → Option Int) (ts : Int) (t : Task) :
    (t.reminderOffset = none →
      resolveOffset t = 5 ∧
      taskMatches jsParse ts t =
        taskMatches jsParse ts { t with reminderOffset := some 5 } ∧
      buildPayload t = buildPayload { t with reminderOffset := some 5 }) ∧
    (∀ v : Int, t.reminderOffset = some v → resolveOffset t = v) := by
  constructor
  · intro h
    have h5 : resolveOffset t = 5 := by
      simp [resolveOffset, h]
    have h6 : resolveOffset { t with reminderOffset := some 5 } = 5 := rfl
    refine ⟨h5, ?_, ?_⟩
    · simp [taskMatches, taskTimeStr, h5, h6]
    · simp [buildPayload, h5, h6]
  · intro v h
    simp [resolveOffset, h]

/-- C8 witness: the default on a concrete offset-free task, and the
unchanged use of a concrete defined offset. -/
theorem offset_defaulting_witness :
    resolveOffset taskNoOff = 5 ∧ resolveOffset taskA = 5 :=
  ⟨((offset_defaulting jsParse0 0 taskNoOff).1 rfl).1,
   (offset_defaulting jsParse0 0 taskA).2 5 rfl⟩

/-- C6: the payload has fields `title`, `body` and `icon`; the body
contains the task's title and startTime; a resolved offset of 0 yields
the "starting now" phrase and a positive offset yields the
"starting in N minutes" phrase with the exact numeric offset. -/
theorem payload_construction (t : Task) :
    (buildPayload t).title = "LifeOS 日程提醒" ∧
    (buildPayload t).icon = "/icon.png" ∧
    (∃ a b c : String, (buildPayload t).body =
      a ++ t.title ++ b ++ t.startTime ++ c) ∧
    (resolveOffset t = 0 → (buildPayload t).body =
      "任务 \"" ++ t.title ++ "\" " ++ "现在开始" ++ " (" ++ t.startTime ++ ")") ∧
    (0 < resolveOffset t → (buildPayload t).body =
      "任务 \"" ++ t.title ++ "\" " ++
        ("将在 " ++ toString (resolveOffset t) ++ " 分钟后开始") ++
        " (" ++ t.startTime ++ ")") := by
  refine ⟨rfl, rfl, ?_, ?_, ?_⟩
  · refine ⟨"任务 \"", "\" " ++ timeDesc (resolveOffset t) ++ " (", ")", ?_⟩
    simp [buildPayload, String.append_assoc]
  · intro h
    simp [buildPayload, timeDesc, h]
  · intro h
    have h0 : (resolveOffset t == 0) = false := by
      simp only [beq_eq_false_iff_ne, ne_eq]
      omega
    simp [buildPayload, timeDesc, h0]

/-- C6 witness: the zero-offset phrase on a concrete task. -/
theorem payload_construction_witness :
    (buildPayload taskNow).body =
      "任务 \"" ++ taskNow.title ++ "\" " ++ "现在开始" ++ " (" ++
        taskNow.startTime ++ ")" :=
  (payload_construction taskNow).2.2.2.1 rfl

/-- C4 counterexample: the claim that the subscription store is
unchanged during the per-subscriber send/classify step is false — a
single subscription whose send fails with HTTP 410 is deleted by that
very step. -/
theorem dispatcher_no_delete_counterexample :
    (deleteDead sendGone410 (buildPayload taskA) [subA]
      ⟨[taskA], [subA]⟩).subs ≠ [subA] := by
  decide

/-- C4 amended: the per-subscriber failure handler deletes 404/410-dead
subscriptions from the store itself, during dispatch; the scheduler
performs no separate deletion step, so after a tick the store holds
exactly the original subscriptions whose endpoint was not reported gone
for any due task's payload. -/
theorem inline_subscription_deletion (jsParse : String → Option Int)
    (send : Subscription → Payload → SendResult) (now : Int) (st : DBState) :
    (runTick jsParse send now st).subs =
      st.subs.filter
        (survives send st.subs (tasksToNotify jsParse (bucket now) st.tasks)) := by
  by_cases hs : st.subs = []
  · rw [runTick_empty_subs _ _ _ _ hs, hs]
    rfl
  · rw [runTick_eq_runTasks _ _ _ _ hs, runTasks_subs]

/-- C9 counterexample: the claim that an error at any step of the tick
leaves the state unmutated is false — with two due tasks and a save
that throws on the second one, the first task's `notified` flag is
already persisted when the exception aborts the tick. -/
theorem tick_atomicity_counterexample :
    (runTickF jsParse0 sendOk true true true saveOk1 35730000
        ⟨[taskA, taskB], [subA]⟩).tasks =
      [setNotified taskA, taskB] ∧
    setNotified taskA ≠ taskA := by
  exact ⟨by decide, by decide⟩

/-- C9 amended: if the store is unavailable at the start of the tick —
the connection check fails or either initial load
(`Subscription.find`, `Task.find`) throws — the tick performs no
mutation at all; the error is contained within the tick.  (A failure
later in the tick is also contained, but mutations already applied
persist, as the counterexample shows.) -/
theorem load_failure_no_mutation (jsParse : String → Option Int)
    (send : Subscription → Payload → SendResult) (saveOk : Task → Bool)
    (now : Int) (st : DBState) (connected subFindOk taskFindOk : Bool)
    (h : connected = false ∨ subFindOk = false ∨ taskFindOk = false) :
    runTickF jsParse send connected subFindOk taskFindOk saveOk now st = st := by
  rcases h with h | h | h <;> simp [runTickF, h]

/-- C9 witness: a disconnected database leaves a state with a due task
untouched. -/
theorem load_failure_no_mutation_witness :
    runTickF jsParse0 sendOk false true true (fun _ => true) 35730000
      ⟨[taskA], [subA]⟩ = ⟨[taskA], [subA]⟩ :=
  load_failure_no_mutation jsParse0 sendOk (fun _ => true) 35730000
    ⟨[taskA], [subA]⟩ false true true (Or.inl rfl)

end LifeOS
